import Mathlib

/-!
Verification of the ReportComposer (src/generate_pdf.py) against its
natural-language specification.

The composer `create_pdf_report(data, output_path)` projects one input record
(`ReadinessReport`) into a sequence of styled blocks (the reportlab "story")
and writes it to a destination.  We embed the record as a structure of
optional Python-like values, the story as a `List Block`, and every numeric
extraction exactly as the source performs it: `d.get(k, 0) or 0` followed by
`float(...)` / `int(...)`, where an unparseable non-falsy string makes the
conversion raise (modelled as `none` propagating out of the composer).
-/

/-- A Python value as it occurs in the input record: a string, a number
(modelled as a rational; JSON numbers), or `None`. -/
inductive PyVal where
  | vStr (s : String)
  | vNum (q : ℚ)
  | vNone
  deriving DecidableEq, Repr

/-- Python truthiness for the values we model: empty string, zero and `None`
are falsy, everything else truthy. -/
def pyTruthy : PyVal → Bool
  | .vStr s => !s.isEmpty
  | .vNum q => decide (q ≠ 0)
  | .vNone => false

/-- Value of a decimal digit string (caller guarantees digits). -/
def digitsToNat (cs : List Char) : Nat :=
  cs.foldl (fun a c => a * 10 + (c.toNat - 48)) 0

/-- Whitespace stripping, the way `float()` / `int()` strip their string
argument. -/
def trimChars (cs : List Char) : List Char :=
  ((cs.dropWhile Char.isWhitespace).reverse.dropWhile Char.isWhitespace).reverse

/-- Does `pat` start the list? -/
def prefMatch : List Char → List Char → Bool
  | [], _ => true
  | _ :: _, [] => false
  | a :: as, b :: bs => a == b && prefMatch as bs

/-- Python `s.replace(old, new)` on character lists: non-overlapping
occurrences replaced left to right.  Recursion on a fuel bounded by the
length of the list (each step consumes at least one character); the
patterns this program replaces are never empty. -/
def replaceFuel (old new : List Char) : Nat → List Char → List Char
  | _, [] => []
  | 0, s => s
  | f + 1, c :: rest =>
      if prefMatch old (c :: rest) && !old.isEmpty then
        new ++ replaceFuel old new f (List.drop (old.length - 1) rest)
      else c :: replaceFuel old new f rest

/-- Python `s.replace(old, new)`. -/
def pyReplace (s old new : String) : String :=
  String.mk (replaceFuel old.toList new.toList s.toList.length s.toList)

/-- Negation on ℚ written through `mkRat` so that concrete values compute. -/
def qNeg (q : ℚ) : ℚ := mkRat (-q.num) q.den

/-- Addition on ℚ written through `mkRat` so that concrete values compute;
`qAdd_eq` identifies it with `+`. -/
def qAdd (a b : ℚ) : ℚ :=
  mkRat (a.num * b.den + b.num * a.den) (a.den * b.den)

/-- Subtraction on ℚ written through `mkRat`; `qSub_eq` identifies it
with `-`. -/
def qSub (a b : ℚ) : ℚ :=
  mkRat (a.num * b.den - b.num * a.den) (a.den * b.den)

/-- Embedding of Python `float(s)` on the string inputs this program meets:
optional surrounding whitespace, optional sign, digits with at most one
decimal point (at least one digit overall).  Anything else — in particular a
word like "abc" or "N/A" — fails, which in the source raises `ValueError`. -/
def parseFloatQ (s : String) : Option ℚ :=
  let cs := trimChars s.toList
  let negAndRest : Bool × List Char :=
    match cs with
    | '-' :: rest => (true, rest)
    | '+' :: rest => (false, rest)
    | _ => (false, cs)
  let body := negAndRest.2
  let intPart := body.takeWhile Char.isDigit
  let rest := body.dropWhile Char.isDigit
  let magnitude : Option ℚ :=
    match rest with
    | [] =>
        if intPart.isEmpty then none
        else some (mkRat (digitsToNat intPart) 1)
    | '.' :: frac =>
        if frac.all Char.isDigit && (!intPart.isEmpty || !frac.isEmpty) then
          some (mkRat (digitsToNat intPart * 10 ^ frac.length + digitsToNat frac)
            (10 ^ frac.length))
        else none
    | _ => none
  magnitude.map (fun q => if negAndRest.1 then qNeg q else q)

/-- Embedding of Python `int(s)` on strings: optional whitespace, optional
sign, then digits only; a decimal point or any other character raises. -/
def parseIntZ (s : String) : Option Int :=
  let cs := trimChars s.toList
  let signAndRest : Int × List Char :=
    match cs with
    | '-' :: rest => (-1, rest)
    | '+' :: rest => (1, rest)
    | _ => (1, cs)
  if !signAndRest.2.isEmpty && signAndRest.2.all Char.isDigit then
    some (signAndRest.1 * (digitsToNat signAndRest.2 : Int))
  else none

/-- Python `int()` truncates toward zero. -/
def pyTrunc (q : ℚ) : Int :=
  if 0 ≤ q then ⌊q⌋ else -⌊qNeg q⌋

/-- Python `float(v)`: numbers pass through, strings are parsed,
`float(None)` raises (`none`). -/
def pyFloat : PyVal → Option ℚ
  | .vNum q => some q
  | .vStr s => parseFloatQ s
  | .vNone => none

/-- Python `int(v)`: numbers truncate toward zero, strings must be integer
literals, `int(None)` raises. -/
def pyIntOf : PyVal → Option Int
  | .vNum q => some (pyTrunc q)
  | .vStr s => parseIntZ s
  | .vNone => none

/-- Embedding of the idiom `d.get(k, 0) or 0`: a missing key gives the
default `0`, and any falsy present value (empty string, `0`, `None`) is
replaced by `0` as well. -/
def orZero : Option PyVal → PyVal
  | none => .vNum 0
  | some w => if pyTruthy w then w else .vNum 0

/-- The numeric coercion `float(d.get(k, 0) or 0)` used throughout the
profile and debts tables; `none` means the source raises. -/
def coerceFloat (v : Option PyVal) : Option ℚ :=
  pyFloat (orZero v)

/-- Decimal digit characters of a natural number, most significant first. -/
def natDigits (n : Nat) : List Char :=
  (Nat.toDigits 10 n)

/-- Thousands grouping of Python `f"{n:,}"` for a natural number. -/
def natComma (n : Nat) : String :=
  let rev := (natDigits n).reverse
  String.mk ((rev.enum.foldl
    (fun acc ic =>
      if ic.1 ≠ 0 && ic.1 % 3 == 0 then ic.2 :: ',' :: acc
      else ic.2 :: acc) []))

/-- Thousands grouping for an integer (sign in front, as Python prints it). -/
def intComma (n : Int) : String :=
  if n < 0 then "-" ++ natComma n.natAbs else natComma n.toNat

/-- The currency rendering `f"${x:,}"` applied to an already-truncated
integer amount. -/
def formatUSD (n : Int) : String :=
  "$" ++ intComma n

/-- A whole table cell of the profile/debts tables:
`f"${int(float(d.get(k, 0) or 0)):,}"`; `none` means the source raises. -/
def fmtMoney (v : Option PyVal) : Option String :=
  (coerceFloat v).map (fun q => formatUSD (pyTrunc q))

/-- Substring test on character lists (`pat` occurs inside `s`), the meaning
of Python `pat in s` on strings. -/
def containsPat (pat : List Char) : List Char → Bool
  | [] => pat.isEmpty
  | c :: rest => prefMatch pat (c :: rest) || containsPat pat rest

/-- Python `pat in s` on strings. -/
def strContains (s pat : String) : Bool :=
  containsPat pat.toList s.toList

/-- Python `str.title()` restricted to the ASCII words this program meets:
first letter of each alphabetic run uppercased, the rest lowercased. -/
def pyTitle (s : String) : String :=
  String.mk ((s.toList.foldl
    (fun (acc : List Char × Bool) c =>
      if c.isAlpha then
        ((if acc.2 then c.toLower else c.toUpper) :: acc.1, true)
      else (c :: acc.1, false)) ([], false)).1.reverse)

/-- `v.title()` where `v` came from `d.get(k, 'N/A')`: only strings have
`.title`, anything else raises `AttributeError` (uncaught in the source). -/
def pyTitleOf : PyVal → Option String
  | .vStr s => some (pyTitle s)
  | _ => none

/-- The `inputs` sub-record of the input data. -/
structure Inputs where
  annualIncome : Option PyVal := none
  additionalIncome : Option PyVal := none
  creditScore : Option PyVal := none
  totalSavings : Option PyVal := none
  monthlySavings : Option PyVal := none
  downPaymentPercent : Option PyVal := none
  loanType : Option PyVal := none
  loanTerm : Option PyVal := none
  interestRate : Option PyVal := none
  deriving DecidableEq, Repr

/-- The `monthlyDebts` sub-record of the input data. -/
structure MonthlyDebts where
  carPayment : Option PyVal := none
  studentLoans : Option PyVal := none
  creditCards : Option PyVal := none
  otherDebt : Option PyVal := none
  deriving DecidableEq, Repr

/-- The `dti` sub-record of the input data. -/
structure DTIRec where
  housingDTI : Option PyVal := none
  totalDTI : Option PyVal := none
  deriving DecidableEq, Repr

/-- The input record of `create_pdf_report` (spec: ReadinessReport).  Fields
the source only passes through as text are typed as optional strings, the
fields it converts numerically as optional `PyVal`s; `none` is an absent
key. -/
structure ReadinessReport where
  generatedAt : Option String := none
  readinessStatus : Option String := none
  targetHomePrice : Option PyVal := none
  monthlyPayment : Option String := none
  downPaymentNeeded : Option String := none
  closingCosts : Option String := none
  totalCashNeeded : Option String := none
  dti : Option DTIRec := none
  inputs : Option Inputs := none
  monthlyDebts : Option MonthlyDebts := none
  deriving DecidableEq, Repr

/-- `data.get('inputs', {})`. -/
def ReadinessReport.inputsD (r : ReadinessReport) : Inputs :=
  r.inputs.getD {}

/-- `data.get('monthlyDebts', {})`. -/
def ReadinessReport.debtsD (r : ReadinessReport) : MonthlyDebts :=
  r.monthlyDebts.getD {}

/-- `data.get('dti', {})`. -/
def ReadinessReport.dtiD (r : ReadinessReport) : DTIRec :=
  r.dti.getD {}

/-- `data.get('readinessStatus', '')`. -/
def ReadinessReport.verdict (r : ReadinessReport) : String :=
  r.readinessStatus.getD ""

/-- Abstract readiness class behind the two identical if-chains of the
source (lines 107-116 and 357-365). -/
inductive VerdictClass where
  | ready
  | almost
  | notready
  deriving DecidableEq, Repr

/-- The classification both chains perform: ✅ or "Ready" first, then 🔶 or
"Almost", else the not-ready branch. -/
def classifyVerdict (verdict : String) : VerdictClass :=
  if strContains verdict "✅" || strContains verdict "Ready" then .ready
  else if strContains verdict "🔶" || strContains verdict "Almost" then .almost
  else .notready

/-- Colors of the verdict banner: accent (`verdict_color`) and background
(`verdict_bg`), as hex strings. -/
structure VerdictTheme where
  color : String
  bg : String
  deriving DecidableEq, Repr

/-- Lines 107-116: the banner theme chosen from the verdict string. -/
def verdictTheme (verdict : String) : VerdictTheme :=
  if strContains verdict "✅" || strContains verdict "Ready" then
    ⟨"#10b981", "#d1fae5"⟩
  else if strContains verdict "🔶" || strContains verdict "Almost" then
    ⟨"#f59e0b", "#fef3c7"⟩
  else
    ⟨"#ef4444", "#fee2e2"⟩

/-- The theme each readiness class stands for. -/
def themeOfClass : VerdictClass → VerdictTheme
  | .ready => ⟨"#10b981", "#d1fae5"⟩
  | .almost => ⟨"#f59e0b", "#fef3c7"⟩
  | .notready => ⟨"#ef4444", "#fee2e2"⟩

/-- Lines 127-131: `targetHomePrice` formatting.  The guard
`if target_price and target_price != '0'` sends falsy values (among them
the number 0) and the literal string "0" to "N/A"; otherwise
`f"${int(float(target_price)):,}"` runs and may raise. -/
def pyNeStrZero : PyVal → Bool
  | .vStr s => s ≠ "0"
  | _ => true

/-- Formatted target price; `none` when `float` raises. -/
def targetPriceFormatted (v : PyVal) : Option String :=
  if pyTruthy v && pyNeStrZero v then
    (pyFloat v).map (fun q => formatUSD (pyTrunc q))
  else some "N/A"

/-- Lines 186-196, `get_dti_color`: parse the percentage string (dropping
'%'), bucket against the threshold; any exception — non-string value or
unparseable text — yields the neutral gray. -/
inductive DTIColor where
  | success
  | warning
  | danger
  | gray
  deriving DecidableEq, Repr

/-- The color buckets of `get_dti_color(dti_str, threshold)`. -/
def get_dti_color (v : PyVal) (threshold : ℚ) : DTIColor :=
  match v with
  | .vStr s =>
      match parseFloatQ (pyReplace s "%" "") with
      | some q =>
          if q ≤ threshold then .success
          else if q ≤ qAdd threshold 7 then .warning
          else .danger
      | none => .gray
  | _ => .gray

/-- Lines 203-204: the Status cell text chosen from the color:
`'✓ Good' if color == success else ('⚠ High' if color == warning else
'✗ Too High')` — gray falls through to the last branch. -/
def dtiStatusText (c : DTIColor) : String :=
  if c = .success then "✓ Good"
  else if c = .warning then "⚠ High"
  else "✗ Too High"

/-- A story element.  Cells of tables carry the raw objects handed to
reportlab (labels are strings, data cells whatever the record held). -/
inductive Block where
  | para (text : String)
  | verdictBox (theme : VerdictTheme) (priceLine : String) (verdictText : String)
  | table (rows : List (List PyVal))
  | divider
  | spacer
  deriving DecidableEq, Repr

/-- Lines 153-158, the Key Results table (values pass through verbatim,
absent keys become "N/A"). -/
def resultsRows (data : ReadinessReport) : List (List PyVal) :=
  [[.vStr "Monthly Payment", .vStr (data.monthlyPayment.getD "N/A")],
   [.vStr "Down Payment Needed", .vStr (data.downPaymentNeeded.getD "N/A")],
   [.vStr "Closing Costs (Est.)", .vStr (data.closingCosts.getD "N/A")],
   [.vStr "Total Cash Needed", .vStr (data.totalCashNeeded.getD "N/A")]]

/-- Lines 181-205, the DTI table.  Never fails: `get_dti_color` catches its
own exceptions. -/
def dtiRows (data : ReadinessReport) : List (List PyVal) :=
  let housing := data.dtiD.housingDTI.getD (.vStr "N/A")
  let total := data.dtiD.totalDTI.getD (.vStr "N/A")
  [[.vStr "Metric", .vStr "Your Value", .vStr "Recommended Max", .vStr "Status"],
   [.vStr "Housing DTI", housing, .vStr "28%",
    .vStr (dtiStatusText (get_dti_color housing 28))],
   [.vStr "Total DTI", total, .vStr "36%",
    .vStr (dtiStatusText (get_dti_color total 36))]]

/-- Lines 235-242, the income table; `none` when a `float()` call raises. -/
def incomeTableRows (inputs : Inputs) : Option (List (List PyVal)) := do
  let annual ← fmtMoney inputs.annualIncome
  let addl ← fmtMoney inputs.additionalIncome
  let savings ← fmtMoney inputs.totalSavings
  let monthly ← fmtMoney inputs.monthlySavings
  pure [[.vStr "Income Information", .vStr ""],
        [.vStr "Annual Gross Income", .vStr annual],
        [.vStr "Additional Income", .vStr addl],
        [.vStr "Credit Score", inputs.creditScore.getD (.vStr "N/A")],
        [.vStr "Total Savings", .vStr savings],
        [.vStr "Monthly Savings Rate", .vStr monthly]]

/-- Lines 276-281: `total_debt = sum of the four coerced debt fields`;
`none` when a `float()` call raises. -/
def totalMonthlyDebt (debts : MonthlyDebts) : Option ℚ := do
  let car ← coerceFloat debts.carPayment
  let stu ← coerceFloat debts.studentLoans
  let cc ← coerceFloat debts.creditCards
  let oth ← coerceFloat debts.otherDebt
  pure (qAdd (qAdd (qAdd car stu) cc) oth)

/-- Lines 267-282, the debts table including the appended total row. -/
def debtsTableRows (debts : MonthlyDebts) : Option (List (List PyVal)) := do
  let car ← fmtMoney debts.carPayment
  let stu ← fmtMoney debts.studentLoans
  let cc ← fmtMoney debts.creditCards
  let oth ← fmtMoney debts.otherDebt
  let total ← totalMonthlyDebt debts
  pure [[.vStr "Monthly Debt Payments", .vStr ""],
        [.vStr "Car Payment(s)", .vStr car],
        [.vStr "Student Loans", .vStr stu],
        [.vStr "Credit Card Minimums", .vStr cc],
        [.vStr "Other Debts", .vStr oth],
        [.vStr "Total Monthly Debt", .vStr (formatUSD (pyTrunc total))]]

/-- Lines 309-314, the loan table; `none` when `.title()` raises on a
non-string `loanType`. -/
def loanTableRows (inputs : Inputs) : Option (List (List PyVal)) := do
  let lt ← pyTitleOf (inputs.loanType.getD (.vStr "N/A"))
  pure [[.vStr "Down Payment", inputs.downPaymentPercent.getD (.vStr "N/A")],
        [.vStr "Loan Type", .vStr lt],
        [.vStr "Loan Term", inputs.loanTerm.getD (.vStr "N/A")],
        [.vStr "Interest Rate", inputs.interestRate.getD (.vStr "N/A")]]

/-- Lines 338-340: `data.get('totalCashNeeded', '$0')` with '$' and ','
stripped, then `float(total_cash) if total_cash else 0`. -/
def parsedTotalCash (data : ReadinessReport) : Option ℚ :=
  let tc := pyReplace (pyReplace (data.totalCashNeeded.getD "$0") "$" "") "," ""
  if tc.isEmpty then some 0 else parseFloatQ tc

/-- Lines 337-346: the savings-gap recommendation.  The whole try-block is
skipped on any exception (`none` from either parse), and produces no item
when savings already cover the cash needed. -/
def savingsGapStep (data : ReadinessReport) : Option String :=
  match coerceFloat data.inputsD.totalSavings with
  | none => none
  | some savings =>
    match parsedTotalCash data with
    | none => none
    | some tcf =>
      if savings < tcf then
        some ("Save " ++ formatUSD (pyTrunc (qSub tcf savings))
          ++ " more for down payment, closing costs, and reserves")
      else none

/-- Lines 348-355: the credit recommendation; `int()` failure suppresses
the rule, otherwise exactly one of the two items is produced. -/
def creditStep (data : ReadinessReport) : Option String :=
  match pyIntOf (orZero data.inputsD.creditScore) with
  | none => none
  | some n =>
    if n < 700 then
      some "Work on improving your credit score above 700 for better interest rates"
    else
      some "Your credit score is good - consider getting pre-approved for a mortgage"

/-- Lines 357-365: the two status-specific recommendations, chosen by the
same if-chain as the banner. -/
def statusSteps (verdict : String) : List String :=
  if strContains verdict "✅" || strContains verdict "Ready" then
    ["You\x27re ready! Start interviewing real estate agents in your target area",
     "Get pre-approved with 2-3 lenders to compare rates"]
  else if strContains verdict "🔶" || strContains verdict "Almost" then
    ["Consider paying down existing debts to improve your DTI ratio",
     "Continue saving while monitoring interest rates"]
  else
    ["Focus on increasing income or reducing monthly debts",
     "Consider looking at homes in a lower price range"]

/-- The two items each readiness class appends. -/
def stepsOfClass : VerdictClass → List String
  | .ready =>
    ["You\x27re ready! Start interviewing real estate agents in your target area",
     "Get pre-approved with 2-3 lenders to compare rates"]
  | .almost =>
    ["Consider paying down existing debts to improve your DTI ratio",
     "Continue saving while monitoring interest rates"]
  | .notready =>
    ["Focus on increasing income or reducing monthly debts",
     "Consider looking at homes in a lower price range"]

/-- Lines 334-365: the full ordered next-steps list. -/
def nextSteps (data : ReadinessReport) : List String :=
  (savingsGapStep data).toList ++ (creditStep data).toList
    ++ statusSteps data.verdict

/-- Lines 367-376: numbered bullet paragraphs. -/
def numberedSteps (steps : List String) : List Block :=
  steps.enum.map (fun is =>
    .para ("<b>" ++ String.mk (natDigits (is.1 + 1)) ++ ".</b> " ++ is.2))

/-- Line 135: the verdict text with status symbols substituted. -/
def verdictDisplay (verdict : String) : String :=
  pyReplace (pyReplace (pyReplace verdict "✅" "✓") "🔶" "⚠") "🔴" "✗"

/-- Lines 97-104: title, generation line and divider.  When `generatedAt`
is absent the source substitutes `datetime.now().strftime(...)`, a value
produced at call time; we thread it in as `now`. -/
def headerBlocks (data : ReadinessReport) (now : String) : List Block :=
  [.para "🏠 Home Buying Readiness Report",
   .para ("Generated on " ++ data.generatedAt.getD now),
   .divider]

/-- Lines 107-148: the verdict banner; `none` when formatting the target
price raises. -/
def verdictBlocks (data : ReadinessReport) : Option (List Block) := do
  let tpf ← targetPriceFormatted (data.targetHomePrice.getD (.vStr "0"))
  pure [.verdictBox (verdictTheme data.verdict)
          ("Target Home Price: " ++ tpf)
          (verdictDisplay data.verdict),
        .spacer]

/-- Lines 150-176: the Key Results section. -/
def resultsBlocks (data : ReadinessReport) : List Block :=
  [.para "📊 Key Results", .table (resultsRows data), .spacer]

/-- Lines 178-228: the DTI section (never raises). -/
def dtiBlocks (data : ReadinessReport) : List Block :=
  [.para "📈 Debt-to-Income Analysis", .table (dtiRows data), .spacer,
   .para "<i>Housing DTI: Percentage of income going to housing costs. Total DTI: Percentage including all debts.</i>",
   .spacer]

/-- Lines 230-262: the income-profile section. -/
def profileBlocks (data : ReadinessReport) : Option (List Block) := do
  let rows ← incomeTableRows data.inputsD
  pure [.para "💰 Your Financial Profile", .table rows, .spacer]

/-- Lines 264-304: the debts section. -/
def debtsBlocks (data : ReadinessReport) : Option (List Block) := do
  let rows ← debtsTableRows data.debtsD
  pure [.table rows, .spacer]

/-- Lines 306-329: the loan-configuration section. -/
def loanBlocks (data : ReadinessReport) : Option (List Block) := do
  let rows ← loanTableRows data.inputsD
  pure [.para "📋 Loan Configuration", .table rows, .spacer]

/-- Lines 331-376: the next-steps section (never raises: both fallible
rules carry their own exception handler). -/
def stepsBlocks (data : ReadinessReport) : List Block :=
  .para "📝 Recommended Next Steps" :: numberedSteps (nextSteps data)

/-- Lines 378-399: footer. -/
def footerBlocks : List Block :=
  [.spacer, .divider,
   .para "This report is for informational purposes only and does not constitute financial advice.<br/>Consult with a mortgage professional for personalized guidance.",
   .spacer,
   .para "Generated by Home Buying Readiness Calculator"]

/-- Lines 96-399: the whole story, assembled section by section in source
order; `none` when any uncaught exception aborts composition. -/
def buildStory (data : ReadinessReport) (now : String) : Option (List Block) := do
  let header := headerBlocks data now
  let verdictPart ← verdictBlocks data
  let results := resultsBlocks data
  let dtiPart := dtiBlocks data
  let profile ← profileBlocks data
  let debtsPart ← debtsBlocks data
  let loanPart ← loanBlocks data
  let steps := stepsBlocks data
  pure (header ++ verdictPart ++ results ++ dtiPart ++ profile
    ++ debtsPart ++ loanPart ++ steps ++ footerBlocks)

/-- The same composition with the record threaded explicitly through every
stage, the way state flows through the source: each stage receives the
record, performs only reads (`dict.get`, string methods — none mutate), and
hands the record on. -/
def composeThreaded (data : ReadinessReport) (now : String) :
    Option (List Block) × ReadinessReport :=
  let s1 : List Block × ReadinessReport := (headerBlocks data now, data)
  let s2 : Option (List Block) × ReadinessReport := (verdictBlocks s1.2, s1.2)
  let s3 : List Block × ReadinessReport := (resultsBlocks s2.2, s2.2)
  let s4 : List Block × ReadinessReport := (dtiBlocks s3.2, s3.2)
  let s5 : Option (List Block) × ReadinessReport := (profileBlocks s4.2, s4.2)
  let s6 : Option (List Block) × ReadinessReport := (debtsBlocks s5.2, s5.2)
  let s7 : Option (List Block) × ReadinessReport := (loanBlocks s6.2, s6.2)
  let s8 : List Block × ReadinessReport := (stepsBlocks s7.2, s7.2)
  (do
    let verdictPart ← s2.1
    let profile ← s5.1
    let debtsPart ← s6.1
    let loanPart ← s7.1
    pure (s1.1 ++ verdictPart ++ s3.1 ++ s4.1 ++ profile ++ debtsPart
      ++ loanPart ++ s8.1 ++ footerBlocks), s8.2)

/-- Lines 21-403 plus the write at line 402: `doc.build(story)` is the one
side effect, abstracted as a destination that either accepts the artifact or
raises; nothing in the source catches that exception, and on success the
function returns `output_path`.  A `.error` is an exception surfaced to the
caller, `.ok (story, path)` the single written artifact and the returned
destination. -/
def create_pdf_report (data : ReadinessReport) (output_path : String)
    (now : String) (writable : Bool) : Except String (List Block × String) :=
  match buildStory data now with
  | none => .error "uncaught exception during composition"
  | some story =>
      if writable then .ok (story, output_path)
      else .error ("could not write " ++ output_path)

theorem qNeg_eq (q : ℚ) : qNeg q = -q := by
  rw [qNeg, Rat.mkRat_eq_div]
  push_cast
  rw [neg_div, Rat.num_div_den]

theorem qAdd_eq (a b : ℚ) : qAdd a b = a + b := by
  rw [qAdd, Rat.mkRat_eq_div]
  push_cast
  conv_rhs => rw [← Rat.num_div_den a, ← Rat.num_div_den b]
  rw [div_add_div _ _ (by exact_mod_cast a.den_nz) (by exact_mod_cast b.den_nz)]
  ring_nf

theorem qSub_eq (a b : ℚ) : qSub a b = a - b := by
  rw [qSub, Rat.mkRat_eq_div]
  push_cast
  conv_rhs => rw [← Rat.num_div_den a, ← Rat.num_div_den b]
  rw [div_sub_div _ _ (by exact_mod_cast a.den_nz) (by exact_mod_cast b.den_nz)]
  ring_nf

/-- A record with every key absent. -/
def reportEmpty : ReadinessReport := {}

/-- Debts sub-record whose car payment is a non-numeric, non-empty string. -/
def debtsNonNumeric : MonthlyDebts := { carPayment := some (.vStr "abc") }

/-- A record whose only content is the non-numeric car payment. -/
def reportNonNumericDebt : ReadinessReport :=
  { monthlyDebts := some debtsNonNumeric }

/-- The debts example of the spec: 300 + 200 + "" + 50. -/
def debtsExample : MonthlyDebts :=
  { carPayment := some (.vNum 300), studentLoans := some (.vNum 200),
    creditCards := some (.vStr ""), otherDebt := some (.vNum 50) }

/-- Inputs for the recommendation-ordering scenario: savings 10000,
credit score 650. -/
def inputsReadyCase : Inputs :=
  { totalSavings := some (.vNum 10000), creditScore := some (.vNum 650) }

/-- Ready-status record with savings below the cash needed and a sub-700
score. -/
def reportReadyCase : ReadinessReport :=
  { readinessStatus := some "✅ Ready to Buy!",
    totalCashNeeded := some "$50,000",
    inputs := some inputsReadyCase }

/-- Inputs with a 720 credit score. -/
def inputsScore720 : Inputs := { creditScore := some (.vNum 720) }

/-- Record with a 720 credit score. -/
def reportScore720 : ReadinessReport := { inputs := some inputsScore720 }

/-- Inputs whose credit score is non-numeric text. -/
def inputsScoreText : Inputs := { creditScore := some (.vStr "abc") }

/-- Record whose credit score is non-numeric text. -/
def reportScoreText : ReadinessReport := { inputs := some inputsScoreText }

/-- Record that carries its own generation timestamp. -/
def reportTimed : ReadinessReport :=
  { generatedAt := some "October 6, 2025 at 09:00 AM" }

/-- C1 (amended): a numeric sub-field that is absent or holds a falsy value
(empty string, 0, None) renders as "$0" without raising, for every money
cell of the profile and debts tables.  (The original claim extended this to
every non-numeric value; the counterexample shows a non-empty non-numeric
string aborts composition instead.) -/
theorem absent_or_falsy_field_renders_zero (v : Option PyVal)
    (h : ∀ w, v = some w → pyTruthy w = false) :
    fmtMoney v = some "$0" := by
  have hz : orZero v = .vNum 0 := by
    cases v with
    | none => rfl
    | some w => simp [orZero, h w rfl]
  rw [fmtMoney, coerceFloat, hz]
  decide

/-- Witness for C1: the empty string is falsy and renders "$0". -/
theorem absent_or_falsy_field_renders_zero_witness :
    fmtMoney (some (.vStr "")) = some "$0" :=
  absent_or_falsy_field_renders_zero (some (.vStr ""))
    (fun _ h => by cases h; rfl)

/-- C1 counterexample: with monthlyDebts.carPayment = "abc" the composition
raises (no story is produced), instead of rendering "$0". -/
theorem nonNumeric_debt_aborts_composition :
    buildStory reportNonNumericDebt "t" = none := by decide

/-- C2 (amended): the banner theme and the status-specific recommendations
are driven by one and the same classification; a verdict marked ✅ or
containing "Ready" classifies ready, otherwise 🔶/"Almost" classifies
almost, and everything else classifies notready.  (The original claim said
every NotReady-marked status lands in the notready class; the
counterexample shows a NotReady text containing the substring "Ready" is
classified ready.) -/
theorem verdict_classification (v : String) :
    verdictTheme v = themeOfClass (classifyVerdict v) ∧
    statusSteps v = stepsOfClass (classifyVerdict v) ∧
    ((strContains v "✅" || strContains v "Ready") = true →
      classifyVerdict v = .ready) ∧
    ((strContains v "✅" || strContains v "Ready") = false →
      (strContains v "🔶" || strContains v "Almost") = true →
      classifyVerdict v = .almost) ∧
    ((strContains v "✅" || strContains v "Ready") = false →
      (strContains v "🔶" || strContains v "Almost") = false →
      classifyVerdict v = .notready) := by
  by_cases h1 : (strContains v "✅" || strContains v "Ready") = true
  · simp [verdictTheme, classifyVerdict, statusSteps, themeOfClass,
      stepsOfClass, h1]
  · by_cases h2 : (strContains v "🔶" || strContains v "Almost") = true
    all_goals simp_all [verdictTheme, classifyVerdict, statusSteps,
      themeOfClass, stepsOfClass]

/-- Witness for C2 at the three marked statuses. -/
theorem verdict_classification_witness :
    classifyVerdict "✅ Ready to Buy!" = .ready ∧
    classifyVerdict "🔶 Almost There" = .almost ∧
    classifyVerdict "🔴 No" = .notready :=
  ⟨(verdict_classification "✅ Ready to Buy!").2.2.1 (by decide),
   (verdict_classification "🔶 Almost There").2.2.2.1 (by decide) (by decide),
   (verdict_classification "🔴 No").2.2.2.2 (by decide) (by decide)⟩

/-- C2 counterexample: the NotReady-marked status "🔴 Not Ready" contains
the substring "Ready" and is classified into the ready (success) class, not
the notready (danger) class. -/
theorem notReady_text_classified_ready :
    classifyVerdict "🔴 Not Ready" = .ready ∧
    verdictTheme "🔴 Not Ready" = themeOfClass .ready ∧
    statusSteps "🔴 Not Ready" = stepsOfClass .ready := by decide

/-- C3 (amended): a DTI percentage string parsing to q is bucketed success
(good) when q ≤ threshold, warning (high) when threshold < q ≤ threshold+7,
danger (too-high) when q > threshold+7; an unparseable or non-string value
classifies gray (unknown) and never raises — but the Status cell text for
gray is "✗ Too High", the same text as the too-high bucket, not a neutral
rendering.  (The original claim said the unknown case renders neutrally.) -/
theorem dti_bucketing (v : PyVal) (t : ℚ) :
    (∀ s q, v = .vStr s → parseFloatQ (pyReplace s "%" "") = some q →
      get_dti_color v t =
        (if q ≤ t then .success
         else if q ≤ t + 7 then .warning
         else .danger)) ∧
    (∀ s, v = .vStr s → parseFloatQ (pyReplace s "%" "") = none →
      get_dti_color v t = .gray) ∧
    ((∀ s, v ≠ .vStr s) → get_dti_color v t = .gray) ∧
    dtiStatusText .success = "✓ Good" ∧
    dtiStatusText .warning = "⚠ High" ∧
    dtiStatusText .danger = "✗ Too High" ∧
    dtiStatusText .gray = "✗ Too High" := by
  refine ⟨?_, ?_, ?_, by decide, by decide, by decide, by decide⟩
  · rintro s q rfl hp
    simp [get_dti_color, hp, qAdd_eq]
  · rintro s rfl hp
    simp [get_dti_color, hp]
  · intro h
    cases v with
    | vStr s => exact absurd rfl (h s)
    | vNum q => rfl
    | vNone => rfl

/-- Witness for C3: the spec's four example buckets. -/
theorem dti_bucketing_witness :
    get_dti_color (.vStr "27%") 28 = .success ∧
    get_dti_color (.vStr "32%") 28 = .warning ∧
    get_dti_color (.vStr "40%") 28 = .danger ∧
    get_dti_color (.vStr "abc") 28 = .gray := by
  have h27 := (dti_bucketing (.vStr "27%") 28).1 "27%" 27 rfl (by decide)
  have h32 := (dti_bucketing (.vStr "32%") 28).1 "32%" 32 rfl (by decide)
  have h40 := (dti_bucketing (.vStr "40%") 28).1 "40%" 40 rfl (by decide)
  have habc := (dti_bucketing (.vStr "abc") 28).2.1 "abc" rfl (by decide)
  refine ⟨?_, ?_, ?_, habc⟩
  · rw [h27]; norm_num
  · rw [h32]; norm_num
  · rw [h40]; norm_num

/-- C3 counterexample: the unparseable value "abc" classifies gray but its
rendered Status text is "✗ Too High" — the too-high rendering, not a
neutral one. -/
theorem unparseable_dti_renders_too_high :
    get_dti_color (.vStr "abc") 28 = .gray ∧
    dtiStatusText (get_dti_color (.vStr "abc") 28) = "✗ Too High" := by decide

/-- C4: with savings below the parsed total cash needed, a sub-700 parsed
credit score and a Ready-marked status, the next-steps list is exactly the
savings-gap item (gap = totalCashNeeded − totalSavings), then the credit
item, then the two ready items, in that order, length 4. -/
theorem nextSteps_ordered (data : ReadinessReport) (savings tcf : ℚ) (n : Int)
    (hs : coerceFloat data.inputsD.totalSavings = some savings)
    (htc : parsedTotalCash data = some tcf)
    (hlt : savings < tcf)
    (hc : pyIntOf (orZero data.inputsD.creditScore) = some n)
    (hn : n < 700)
    (hr : strContains data.verdict "Ready" = true) :
    nextSteps data =
      ["Save " ++ formatUSD (pyTrunc (tcf - savings))
         ++ " more for down payment, closing costs, and reserves",
       "Work on improving your credit score above 700 for better interest rates",
       "You\x27re ready! Start interviewing real estate agents in your target area",
       "Get pre-approved with 2-3 lenders to compare rates"] ∧
    (nextSteps data).length = 4 := by
  have h1 : savingsGapStep data =
      some ("Save " ++ formatUSD (pyTrunc (tcf - savings))
        ++ " more for down payment, closing costs, and reserves") := by
    simp [savingsGapStep, hs, htc, hlt, qSub_eq]
  have h2 : creditStep data =
      some "Work on improving your credit score above 700 for better interest rates" := by
    simp [creditStep, hc, hn]
  have h3 : statusSteps data.verdict = stepsOfClass .ready := by
    simp [statusSteps, stepsOfClass, hr]
  refine ⟨?_, ?_⟩ <;> simp [nextSteps, h1, h2, h3, stepsOfClass]

/-- Witness for C4: savings 10000, cash needed "$50,000", score 650, status
"✅ Ready to Buy!" produce the four items in order with a $40,000 gap. -/
theorem nextSteps_ordered_witness :
    nextSteps reportReadyCase =
      ["Save $40,000 more for down payment, closing costs, and reserves",
       "Work on improving your credit score above 700 for better interest rates",
       "You\x27re ready! Start interviewing real estate agents in your target area",
       "Get pre-approved with 2-3 lenders to compare rates"] ∧
    (nextSteps reportReadyCase).length = 4 := by
  have h := nextSteps_ordered reportReadyCase 10000 50000 650
    (by decide) (by decide) (by norm_num) (by decide) (by norm_num) (by decide)
  have hgap : (50000 : ℚ) - 10000 = 40000 := by norm_num
  refine ⟨?_, h.2⟩
  rw [h.1, hgap]
  decide

/-- C5 (amended): whenever all four debt sub-fields coerce (numeric,
absent, or falsy values), the rendered Total Monthly Debt is the formatted
sum of the four coerced values.  (The original claim also coerced non-empty
non-numeric strings to 0; the counterexample shows those raise instead.) -/
theorem total_debt_is_sum (d : MonthlyDebts) (a b c e : ℚ)
    (h1 : coerceFloat d.carPayment = some a)
    (h2 : coerceFloat d.studentLoans = some b)
    (h3 : coerceFloat d.creditCards = some c)
    (h4 : coerceFloat d.otherDebt = some e) :
    totalMonthlyDebt d = some (a + b + c + e) ∧
    debtsTableRows d = some
      [[.vStr "Monthly Debt Payments", .vStr ""],
       [.vStr "Car Payment(s)", .vStr (formatUSD (pyTrunc a))],
       [.vStr "Student Loans", .vStr (formatUSD (pyTrunc b))],
       [.vStr "Credit Card Minimums", .vStr (formatUSD (pyTrunc c))],
       [.vStr "Other Debts", .vStr (formatUSD (pyTrunc e))],
       [.vStr "Total Monthly Debt", .vStr (formatUSD (pyTrunc (a + b + c + e)))]] := by
  have ht : totalMonthlyDebt d = some (a + b + c + e) := by
    simp [totalMonthlyDebt, h1, h2, h3, h4, qAdd_eq]
  refine ⟨ht, ?_⟩
  simp [debtsTableRows, fmtMoney, h1, h2, h3, h4, ht]

/-- Witness for C5: the spec's example {300, 200, "", 50} totals 550 and
renders "$550". -/
theorem total_debt_is_sum_witness :
    totalMonthlyDebt debtsExample = some 550 ∧
    debtsTableRows debtsExample = some
      [[.vStr "Monthly Debt Payments", .vStr ""],
       [.vStr "Car Payment(s)", .vStr "$300"],
       [.vStr "Student Loans", .vStr "$200"],
       [.vStr "Credit Card Minimums", .vStr "$0"],
       [.vStr "Other Debts", .vStr "$50"],
       [.vStr "Total Monthly Debt", .vStr "$550"]] := by
  have h := total_debt_is_sum debtsExample 300 200 0 50
    (by decide) (by decide) (by decide) (by decide)
  have hsum : (300 : ℚ) + 200 + 0 + 50 = 550 := by norm_num
  rw [hsum] at h
  exact ⟨h.1, by rw [h.2]; decide⟩

/-- C5 counterexample: a non-empty non-numeric debt value is not coerced to
0 — the total computation raises. -/
theorem nonNumeric_debt_total_raises :
    totalMonthlyDebt debtsNonNumeric = none := by decide

/-- C6 (amended): a currency field holding a valid non-negative number
reappears rendered as "$" plus the thousands-grouped integer part — for the
profile/debts money cells at every non-negative value including 0, and for
targetHomePrice at every positive value; targetHomePrice 0 (or "0")
renders as "N/A" instead.  (The original claim included 0 for
targetHomePrice; the counterexample shows "N/A".) -/
theorem currency_roundtrip (q : ℚ) (h : 0 ≤ q) :
    fmtMoney (some (.vNum q)) = some (formatUSD (pyTrunc q)) ∧
    (0 < q → targetPriceFormatted (.vNum q) = some (formatUSD (pyTrunc q))) := by
  constructor
  · by_cases hq : q = 0
    · subst hq; decide
    · simp [fmtMoney, coerceFloat, orZero, pyTruthy, hq, pyFloat]
  · intro hq
    have h1 : pyTruthy (.vNum q) = true := by
      simp [pyTruthy]
      exact ne_of_gt hq
    simp [targetPriceFormatted, h1, pyNeStrZero, pyFloat]

/-- Witness for C6: 125000 renders as "$125,000" in both positions. -/
theorem currency_roundtrip_witness :
    fmtMoney (some (.vNum 125000)) = some "$125,000" ∧
    targetPriceFormatted (.vNum 125000) = some "$125,000" := by
  have h := currency_roundtrip 125000 (by norm_num)
  exact ⟨by rw [h.1]; decide, by rw [h.2 (by norm_num)]; decide⟩

/-- C6 counterexample: a targetHomePrice of 0 (number or string) renders
"N/A", not "$0". -/
theorem targetPrice_zero_renders_NA :
    targetPriceFormatted (.vNum 0) = some "N/A" ∧
    targetPriceFormatted (.vStr "0") = some "N/A" := by decide

/-- C7 (amended): when the record carries its own generatedAt timestamp,
composition is a deterministic function of the record — the call-time clock
value is ignored.  (The original claim said the timestamp is never
generated internally; the counterexample shows that with generatedAt absent
the composer substitutes the current time, so two runs can differ.) -/
theorem compose_deterministic_given_timestamp (data : ReadinessReport)
    (t now nowB path : String) (w : Bool)
    (h : data.generatedAt = some t) :
    buildStory data now = buildStory data nowB ∧
    create_pdf_report data path now w = create_pdf_report data path nowB w := by
  have hh : headerBlocks data now = headerBlocks data nowB := by
    simp [headerBlocks, h]
  constructor
  · simp [buildStory, hh]
  · simp [create_pdf_report, buildStory, hh]

/-- Witness for C7: a record with its own timestamp composes identically
under two different clock values. -/
theorem compose_deterministic_witness :
    buildStory reportTimed "A" = buildStory reportTimed "B" ∧
    create_pdf_report reportTimed "out.pdf" "A" true
      = create_pdf_report reportTimed "out.pdf" "B" true :=
  compose_deterministic_given_timestamp reportTimed
    "October 6, 2025 at 09:00 AM" "A" "B" "out.pdf" true rfl

/-- C7 counterexample: with generatedAt absent the story depends on the
call-time clock — two invocations on the identical record differ. -/
theorem compose_uses_current_time_when_absent :
    buildStory reportEmpty "A" ≠ buildStory reportEmpty "B" := by decide

/-- C8: a parsed credit score produces exactly one credit item — the
improve-credit item below 700, the pre-approval item at 700 and above —
and a score that fails to parse produces none. -/
theorem credit_rule (data : ReadinessReport) :
    (∀ n, pyIntOf (orZero data.inputsD.creditScore) = some n →
      creditStep data = some (if n < 700
        then "Work on improving your credit score above 700 for better interest rates"
        else "Your credit score is good - consider getting pre-approved for a mortgage")) ∧
    (pyIntOf (orZero data.inputsD.creditScore) = none →
      creditStep data = none) := by
  constructor
  · intro n hn
    simp only [creditStep, hn]
    split <;> simp_all
  · intro hn
    simp [creditStep, hn]

/-- Witness for C8: score 720 yields the pre-approval item, a textual
score yields no credit item. -/
theorem credit_rule_witness :
    creditStep reportScore720 = some (if (720 : Int) < 700
      then "Work on improving your credit score above 700 for better interest rates"
      else "Your credit score is good - consider getting pre-approved for a mortgage") ∧
    creditStep reportScoreText = none :=
  ⟨(credit_rule reportScore720).1 720 (by decide),
   (credit_rule reportScoreText).2 (by decide)⟩

/-- C9: when composition succeeds, a writable destination receives exactly
the composed artifact and the destination identifier is returned; an
unwritable destination surfaces an explicit error (nothing in the composer
catches it) and no success value is produced. -/
theorem write_contract (data : ReadinessReport) (path now : String)
    (story : List Block) (h : buildStory data now = some story) :
    create_pdf_report data path now true = .ok (story, path) ∧
    create_pdf_report data path now false
      = .error ("could not write " ++ path) := by
  constructor <;> simp [create_pdf_report, h]

set_option maxRecDepth 10000 in
/-- Witness for C9 on the empty record. -/
theorem write_contract_witness :
    create_pdf_report reportEmpty "report.pdf" "NOW" true
      = .ok ((buildStory reportEmpty "NOW").getD [], "report.pdf") ∧
    create_pdf_report reportEmpty "report.pdf" "NOW" false
      = .error ("could not write " ++ "report.pdf") :=
  write_contract reportEmpty "report.pdf" "NOW"
    ((buildStory reportEmpty "NOW").getD []) (by decide)

/-- C10: the composer only reads the record: threading the record through
every stage returns it unchanged, and the threaded composition is the
composition. -/
theorem composer_reads_only (data : ReadinessReport) (now : String) :
    (composeThreaded data now).2 = data ∧
    (composeThreaded data now).1 = buildStory data now :=
  ⟨rfl, rfl⟩
